import Mathlib

/-!
Verification development for the `moat` request-gating middleware
(`src/moat/middleware.py`, class `MoatMiddleware`).

The middleware's `process_request` method is embedded as a pure function
from a settings record, an environment of external capabilities (route
resolution and credential verification), and a request record, to either
an uncaught exception (`MoatError`) or a pair of an optional HTTP response
and the resulting session store.  A `none` response means the middleware
returned `None`, i.e. the request is allowed to proceed.

Python library functions that the middleware relies on are embedded
faithfully: `str.split()` (whitespace split dropping empty pieces),
`str.lower()` (ASCII lowercasing), `base64.b64decode` (CPython 2.7's
`binascii.a2b_base64` algorithm, which skips invalid characters, handles
`=` padding positionally and raises on incorrect padding), and
`str.split(':')` (split on every colon).
-/

namespace Moat

/-- Django's `request.session`: a key/value store, modelled as an
association list from string keys to byte strings (Python 2 `str`). -/
abbrev Session := List (String × List Nat)

/-- The result of `django.core.urlresolvers.resolve(path).func`: the
resolved view function's `__module__` and `__name__`. -/
structure Route where
  viewModule : String
  viewName : String
  deriving DecidableEq, Repr

/-- The identity returned by `django.contrib.auth.authenticate`; the
middleware only reads its `is_staff` flag. -/
structure AuthUser where
  is_staff : Bool
  deriving DecidableEq, Repr

/-- The HTTP responses the middleware builds: only the fields it actually
sets (status code, `Location` header, `WWW-Authenticate` header). -/
structure MoatResponse where
  status : Nat
  location : Option String
  wwwAuthenticate : Option String
  deriving DecidableEq, Repr

/-- The uncaught exceptions `process_request` can raise: `Resolver404`
from `resolve()` on an unresolvable path, `TypeError` from
`base64.b64decode` on invalid base64 (CPython 2.7's `base64.b64decode`
catches the `binascii.Error` raised by `binascii.a2b_base64` and
re-raises it as `TypeError`), `ValueError` from unpacking `split(':')`
into exactly two names, and the explicit `RuntimeError` raised in
`_redirect` for a POST under `settings.DEBUG`. -/
inductive MoatError where
  | resolver404
  | typeError
  | valueError
  | sslRedirectPost
  deriving DecidableEq, Repr

/-- The Django settings the middleware reads.  `MOAT_ENABLED` and
`HTTP_AUTH_REALM` are accessed directly on `settings` inside
`try/except AttributeError`, so absence is observable: they are `Option`s.
The remaining `MOAT_*` settings are read with `getattr(..., default)` in
`__init__`, so only their final values matter.  A compiled regex from
`MOAT_ALWAYS_ALLOW_URLS` is modelled by its `search` behaviour, a
predicate on the path. -/
structure MoatSettings where
  MOAT_ENABLED : Option Bool
  MOAT_ALWAYS_ALLOW_MODULES : List String
  MOAT_ALWAYS_ALLOW_VIEWS : List String
  MOAT_ALWAYS_ALLOW_URLS : List (String → Bool)
  MOAT_ALLOW_ADMIN : Bool
  MOAT_DEBUG_DISABLE_HTTPS : Bool
  DEBUG : Bool
  HTTP_AUTH_REALM : Option String

/-- External capabilities the middleware calls:
`django.core.urlresolvers.resolve` (returning `none` where Django raises
`Resolver404`) and `django.contrib.auth.authenticate` (returning `none`
on failure).  Usernames and passwords are byte strings. -/
structure DjangoEnv where
  resolveRoute : String → Option Route
  authenticate : List Nat → List Nat → Option AuthUser

/-- The parts of a Django request object that `process_request` reads.
`rawIsSecure` is the original `request.is_secure()`;
`xForwardedProto` is `request.META.get('HTTP_X_FORWARDED_PROTO')`;
`httpAuthorization` is `request.META.get('HTTP_AUTHORIZATION')`. -/
structure MoatRequest where
  path : String
  pathInfo : String
  host : String
  queryString : String
  method : String
  rawIsSecure : Bool
  xForwardedProto : Option String
  httpAuthorization : Option String
  session : Session

/-- The result of one `process_request` call: an uncaught exception, or a
pair of the returned value (`none` = Python `None`, request proceeds) and
the session store after the call. -/
abbrev MoatResult := Except MoatError (Option MoatResponse × Session)

/-! ### Embeddings of the Python library functions used by the middleware -/

/-- Python 2 `str.split()` whitespace characters. -/
def isPyWs (c : Char) : Bool :=
  c = ' ' || c = '\t' || c = '\n' || c = '\r' || c.toNat = 11 || c.toNat = 12

/-- Worker for `pySplitWs`: accumulates the current (reversed) word and
the (reversed) list of finished words. -/
def pySplitWsAux : List Char → List Char → List String → List String
  | [], [], acc => acc.reverse
  | [], cur, acc => (String.mk cur.reverse :: acc).reverse
  | c :: rest, cur, acc =>
    if isPyWs c then
      match cur with
      | [] => pySplitWsAux rest [] acc
      | _ => pySplitWsAux rest [] (String.mk cur.reverse :: acc)
    else
      pySplitWsAux rest (c :: cur) acc

/-- Python 2 `str.split()` with no argument: split on runs of whitespace,
producing no empty pieces. -/
def pySplitWs (s : String) : List String :=
  pySplitWsAux s.data [] []

/-- Python 2 `str.lower()` in the default locale: lowercase ASCII
letters only. -/
def pyLowerChar (c : Char) : Char :=
  if 65 ≤ c.toNat ∧ c.toNat ≤ 90 then Char.ofNat (c.toNat + 32) else c

/-- Python 2 `str.lower()`. -/
def pyLower (s : String) : String :=
  String.mk (s.data.map pyLowerChar)

/-- CPython's `table_a2b_base64`: the 6-bit value of a base64 alphabet
character, `none` for characters outside the alphabet (`=` excluded). -/
def b64val (c : Char) : Option Nat :=
  let n := c.toNat
  if 65 ≤ n ∧ n ≤ 90 then some (n - 65)
  else if 97 ≤ n ∧ n ≤ 122 then some (n - 97 + 26)
  else if 48 ≤ n ∧ n ≤ 57 then some (n - 48 + 52)
  else if n = 43 then some 62
  else if n = 47 then some 63
  else none

/-- Validity test used by CPython's `binascii_find_valid`: an ASCII
character that is in the base64 table, where `=` also counts as valid. -/
def b64validChar (c : Char) : Bool :=
  c.toNat ≤ 127 && (c = '=' || (b64val c).isSome)

/-- CPython's `binascii_find_valid(s, len, 1)` relative to the position
just after the current character: the next valid character, if any. -/
def findValidA : List Char → Option Char
  | [] => none
  | c :: rest => if b64validChar c then some c else findValidA rest

/-- CPython 2.7 `binascii.a2b_base64` main loop.  State: remaining input,
`quad_pos` (position in the current 4-character group), `leftchar`
(accumulated bits as a number), `leftbits` (number of accumulated bits),
and the output bytes in reverse.  Characters above 0x7f, `\r`, `\n`, space
and non-alphabet characters are skipped; a `=` is skipped when it cannot
be a padding terminator, and otherwise ends decoding successfully; at end
of input, nonzero `leftbits` raises `binascii.Error` (`none`). -/
def a2b64 : List Char → Nat → Nat → Nat → List Nat → Option (List Nat)
  | [], _, _, leftbits, acc =>
    if leftbits ≠ 0 then none else some acc.reverse
  | c :: rest, quadPos, leftchar, leftbits, acc =>
    if c.toNat > 127 ∨ c = '\r' ∨ c = '\n' ∨ c = ' ' then
      a2b64 rest quadPos leftchar leftbits acc
    else if c = '=' then
      if quadPos < 2 ∨ (quadPos = 2 ∧ findValidA rest ≠ some '=') then
        a2b64 rest quadPos leftchar leftbits acc
      else
        some acc.reverse
    else
      match b64val c with
      | none => a2b64 rest quadPos leftchar leftbits acc
      | some v =>
        let leftchar' := leftchar * 64 + v
        let leftbits' := leftbits + 6
        if 8 ≤ leftbits' then
          a2b64 rest ((quadPos + 1) % 4) (leftchar' % 2 ^ (leftbits' - 8))
            (leftbits' - 8) (((leftchar' / 2 ^ (leftbits' - 8)) % 256) :: acc)
        else
          a2b64 rest ((quadPos + 1) % 4) leftchar' leftbits' acc

/-- Python 2 `base64.b64decode`: `none` models the `binascii.Error`
("Incorrect padding") raised by `binascii.a2b_base64`, which
`base64.b64decode` re-raises as `TypeError`. -/
def pyB64Decode (s : String) : Option (List Nat) :=
  a2b64 s.data 0 0 0 []

/-- Worker for `splitColon`. -/
def splitColonAux : List Nat → List Nat → List (List Nat)
  | [], cur => [cur.reverse]
  | b :: rest, cur =>
    if b = 58 then cur.reverse :: splitColonAux rest []
    else splitColonAux rest (b :: cur)

/-- Python 2 `str.split(':')` on a byte string: split on every colon
(byte 58), keeping empty pieces. -/
def splitColon (bs : List Nat) : List (List Nat) :=
  splitColonAux bs []

/-- Membership test on a list of strings (Python `in`). -/
def listHas (l : List String) (x : String) : Bool :=
  match l with
  | [] => false
  | y :: rest => if y = x then true else listHas rest x

/-- The `for allowed_url in self.always_allow_urls` loop: does some
pattern's `search` accept the path?  First match returns. -/
def anyUrlMatch (pats : List (String → Bool)) (path : String) : Bool :=
  match pats with
  | [] => false
  | p :: rest => if p path then true else anyUrlMatch rest path

/-- List-level prefix test (for Python `str.startswith`). -/
def listLeadsWith : List Char → List Char → Bool
  | [], _ => true
  | _ :: _, [] => false
  | c :: cs, d :: ds => c = d && listLeadsWith cs ds

/-- Python `str.startswith(p)`. -/
def strStartsWith (s p : String) : Bool :=
  listLeadsWith p.data s.data

/-- Session store read: `request.session.get(k)`. -/
def sessionGet (s : Session) (k : String) : Option (List Nat) :=
  match s with
  | [] => none
  | (k', v) :: rest => if k' = k then some v else sessionGet rest k

/-- Session store write: `request.session[k] = v` (replace or append). -/
def sessionSet (s : Session) (k : String) (v : List Nat) : Session :=
  match s with
  | [] => [(k, v)]
  | (k', v') :: rest =>
    if k' = k then (k, v) :: rest else (k', v') :: sessionSet rest k v

/-- Bytes of a string, for building concrete usernames/passwords. -/
def strBytes (s : String) : List Nat :=
  s.data.map Char.toNat

/-! ### The middleware itself -/

/-- The `HttpResponseTemporaryRedirect` class: an
`HttpResponseRedirect` (sets the `Location` header) with
`status_code = 307`. -/
def temporaryRedirectResponse (url : String) : MoatResponse :=
  { status := 307, location := some url, wwwAuthenticate := none }

/-- The 401 challenge response built at the end of `_http_auth_helper`:
status 401 and a `WWW-Authenticate: Basic realm="…"` header, with the
realm taken from `settings.HTTP_AUTH_REALM` and defaulting to the empty
string when that setting is absent. -/
def challengeResponse (cfg : MoatSettings) : MoatResponse :=
  { status := 401
    location := none
    wwwAuthenticate :=
      some ("Basic realm=\"" ++
        (match cfg.HTTP_AUTH_REALM with | some r => r | none => "") ++ "\"") }

/-- Django's `request.get_full_path()`: the path, plus `?` and the query
string when the query string is nonempty. -/
def get_full_path (req : MoatRequest) : String :=
  req.path ++ (if req.queryString = "" then "" else "?" ++ req.queryString)

/-- Embedding of `MoatMiddleware._redirect`: build the https URL from the
host and full path; raise `RuntimeError` when `settings.DEBUG` is on and
the method is `POST`; otherwise return the 307 redirect response. -/
def moat_redirect (cfg : MoatSettings) (req : MoatRequest) :
    Except MoatError MoatResponse :=
  if cfg.DEBUG = true ∧ req.method = "POST" then
    Except.error MoatError.sslRedirectPost
  else
    Except.ok (temporaryRedirectResponse ("https://" ++ req.host ++ get_full_path req))

/-- Embedding of `MoatMiddleware._http_auth_helper`: if an Authorization
header is present, splits into exactly two whitespace-separated tokens
with scheme `basic` (case-insensitive), base64-decodes the credentials
(raising `TypeError` on a bad decode), splits on `:` and unpacks into
username and password (raising `ValueError` on a piece count other than
two), and calls `authenticate`; a staff identity writes `moat_username`
to the session and returns `None`.  Every non-raising failure falls
through to the 401 challenge. -/
def http_auth_helper (cfg : MoatSettings) (env : DjangoEnv)
    (req : MoatRequest) : MoatResult :=
  match req.httpAuthorization with
  | none => Except.ok (some (challengeResponse cfg), req.session)
  | some hdr =>
    match pySplitWs hdr with
    | [scheme, cred] =>
      if pyLower scheme = "basic" then
        match pyB64Decode cred with
        | none => Except.error MoatError.typeError
        | some decoded =>
          match splitColon decoded with
          | [uname, passwd] =>
            match env.authenticate uname passwd with
            | some user =>
              if user.is_staff then
                Except.ok (none, sessionSet req.session "moat_username" uname)
              else Except.ok (some (challengeResponse cfg), req.session)
            | none => Except.ok (some (challengeResponse cfg), req.session)
          | _ => Except.error MoatError.valueError
      else Except.ok (some (challengeResponse cfg), req.session)
    | _ => Except.ok (some (challengeResponse cfg), req.session)

/-- The view allow-list: the built-in redirect view plus
`MOAT_ALWAYS_ALLOW_VIEWS`. -/
def whitelisted_views (cfg : MoatSettings) : List String :=
  "django.views.generic.simple.redirect_to" :: cfg.MOAT_ALWAYS_ALLOW_VIEWS

/-- The module allow-list: `MOAT_ALWAYS_ALLOW_MODULES`. -/
def whitelisted_modules (cfg : MoatSettings) : List String :=
  cfg.MOAT_ALWAYS_ALLOW_MODULES

/-- The value of `request.is_secure()` after the forwarded-proto
monkey-patch of lines 91-93: patched to true exactly when
`HTTP_X_FORWARDED_PROTO` is present and equals `"https"`, otherwise the
raw flag.  This captures only the value the patched method returns; the
monkey-patch's write to the request object itself is modelled by
`patched_request` and the state-threading `process_request_state`
below, and `patched_request_secure` relates the two. -/
def is_secure_effective (req : MoatRequest) : Bool :=
  match req.xForwardedProto with
  | some v => if v = "https" then true else req.rawIsSecure
  | none => req.rawIsSecure

/-- The body of `process_request` after the `MOAT_ENABLED` kill-switch:
URL allow-list, session fast-path, route resolution and route
allow-lists, forwarded-proto normalization plus HTTPS enforcement, and
finally the Basic Auth helper. -/
def gated_checks (cfg : MoatSettings) (env : DjangoEnv)
    (req : MoatRequest) : MoatResult :=
  if anyUrlMatch cfg.MOAT_ALWAYS_ALLOW_URLS req.path then
    Except.ok (none, req.session)
  else if (sessionGet req.session "moat_username").isSome then
    Except.ok (none, req.session)
  else
    match env.resolveRoute req.pathInfo with
    | none => Except.error MoatError.resolver404
    | some route =>
      if listHas (whitelisted_views cfg)
          (route.viewModule ++ "." ++ route.viewName) then
        Except.ok (none, req.session)
      else if listHas (whitelisted_modules cfg) route.viewModule then
        Except.ok (none, req.session)
      else if cfg.MOAT_ALLOW_ADMIN
          && strStartsWith route.viewModule "django.contrib.admin" then
        Except.ok (none, req.session)
      else if !cfg.MOAT_DEBUG_DISABLE_HTTPS && !is_secure_effective req then
        match moat_redirect cfg req with
        | Except.error e => Except.error e
        | Except.ok resp => Except.ok (some resp, req.session)
      else
        http_auth_helper cfg env req

/-- Embedding of `MoatMiddleware.process_request`.  The kill-switch reads
`settings.MOAT_ENABLED` inside `try/except AttributeError`: when the
setting is present and falsy the middleware returns `None` immediately;
when it is absent the `AttributeError` is swallowed and the checks
proceed. -/
def process_request (cfg : MoatSettings) (env : DjangoEnv)
    (req : MoatRequest) : MoatResult :=
  match cfg.MOAT_ENABLED with
  | some b =>
    if b = false then Except.ok (none, req.session)
    else gated_checks cfg env req
  | none => gated_checks cfg env req

/-- Outcome classifier: a result is the Allow outcome when the middleware
returns `None` (no response), letting the request proceed. -/
def isAllow (r : MoatResult) : Bool :=
  match r with
  | Except.ok (none, _) => true
  | _ => false

/-- Outcome classifier: a result is the RedirectToSecure outcome when the
middleware returns a response with status 307. -/
def isRedirect (r : MoatResult) : Bool :=
  match r with
  | Except.ok (some resp, _) => decide (resp.status = 307)
  | _ => false

/-! ### State-threading embedding of the request-object mutation

The source performs a second write on request-scoped state besides the
session write: line 93 monkey-patches `request.is_secure = lambda: True`
in place when the forwarded-proto header equals `https`, and that change
to the request object is observable by everything downstream of the
middleware.  `process_request` above projects the call down to its
outcome and final session; the definitions below thread the whole
request object instead, so the monkey-patch is a visible state change.
`process_request_state_agrees` proves that `process_request` is exactly
the outcome/session projection of this embedding. -/

/-- The request object after lines 91-93: `request.is_secure` is
overwritten to return `True` exactly when `HTTP_X_FORWARDED_PROTO` is
present and equals `"https"`.  `rawIsSecure` models the current
behaviour of `request.is_secure()`, so the patch updates that field. -/
def patched_request (req : MoatRequest) : MoatRequest :=
  match req.xForwardedProto with
  | some v => if v = "https" then { req with rawIsSecure := true } else req
  | none => req

/-- `MoatMiddleware._http_auth_helper`, threading the request object:
identical to `http_auth_helper` except that the result carries the final
request, whose session field holds the (possibly written) session. -/
def http_auth_helper_state (cfg : MoatSettings) (env : DjangoEnv)
    (req : MoatRequest) : Except MoatError (Option MoatResponse × MoatRequest) :=
  match req.httpAuthorization with
  | none => Except.ok (some (challengeResponse cfg), req)
  | some hdr =>
    match pySplitWs hdr with
    | [scheme, cred] =>
      if pyLower scheme = "basic" then
        match pyB64Decode cred with
        | none => Except.error MoatError.typeError
        | some decoded =>
          match splitColon decoded with
          | [uname, passwd] =>
            match env.authenticate uname passwd with
            | some user =>
              if user.is_staff then
                Except.ok (none,
                  { req with
                    session := sessionSet req.session "moat_username" uname })
              else Except.ok (some (challengeResponse cfg), req)
            | none => Except.ok (some (challengeResponse cfg), req)
          | _ => Except.error MoatError.valueError
      else Except.ok (some (challengeResponse cfg), req)
    | _ => Except.ok (some (challengeResponse cfg), req)

/-- The gated checks, threading the request object.  The forwarded-proto
monkey-patch (`patched_request`) happens exactly where the source does
it: after the route allow-lists, before HTTPS enforcement, and only on
requests that reach that point; everything downstream (the redirect and
the Basic Auth helper) sees the patched request. -/
def gated_checks_state (cfg : MoatSettings) (env : DjangoEnv)
    (req : MoatRequest) : Except MoatError (Option MoatResponse × MoatRequest) :=
  if anyUrlMatch cfg.MOAT_ALWAYS_ALLOW_URLS req.path then
    Except.ok (none, req)
  else if (sessionGet req.session "moat_username").isSome then
    Except.ok (none, req)
  else
    match env.resolveRoute req.pathInfo with
    | none => Except.error MoatError.resolver404
    | some route =>
      if listHas (whitelisted_views cfg)
          (route.viewModule ++ "." ++ route.viewName) then
        Except.ok (none, req)
      else if listHas (whitelisted_modules cfg) route.viewModule then
        Except.ok (none, req)
      else if cfg.MOAT_ALLOW_ADMIN
          && strStartsWith route.viewModule "django.contrib.admin" then
        Except.ok (none, req)
      else if !cfg.MOAT_DEBUG_DISABLE_HTTPS
          && !(patched_request req).rawIsSecure then
        match moat_redirect cfg (patched_request req) with
        | Except.error e => Except.error e
        | Except.ok resp => Except.ok (some resp, patched_request req)
      else
        http_auth_helper_state cfg env (patched_request req)

/-- `MoatMiddleware.process_request`, threading the request object. -/
def process_request_state (cfg : MoatSettings) (env : DjangoEnv)
    (req : MoatRequest) : Except MoatError (Option MoatResponse × MoatRequest) :=
  match cfg.MOAT_ENABLED with
  | some b =>
    if b = false then Except.ok (none, req)
    else gated_checks_state cfg env req
  | none => gated_checks_state cfg env req

/-- The conjunction of guard conditions under which a request reaches the
HTTPS-enforcement step of `process_request`: the kill-switch does not
fire, no URL pattern matches, no `moat_username` in the session, the path
resolves to `route`, and `route` passes none of the view / module / admin
allow-lists. -/
def reachesHttps (cfg : MoatSettings) (env : DjangoEnv) (req : MoatRequest)
    (route : Route) : Prop :=
  cfg.MOAT_ENABLED ≠ some false ∧
  anyUrlMatch cfg.MOAT_ALWAYS_ALLOW_URLS req.path = false ∧
  sessionGet req.session "moat_username" = none ∧
  env.resolveRoute req.pathInfo = some route ∧
  listHas (whitelisted_views cfg) (route.viewModule ++ "." ++ route.viewName) = false ∧
  listHas (whitelisted_modules cfg) route.viewModule = false ∧
  (cfg.MOAT_ALLOW_ADMIN && strStartsWith route.viewModule "django.contrib.admin") = false

/-! ### Concrete fixtures used by witnesses and counterexamples -/

/-- A baseline settings record: gating enabled, all allow-lists empty,
HTTPS enforcement on, production (`DEBUG = False`), no realm setting. -/
def cfgBase : MoatSettings :=
  { MOAT_ENABLED := some true
    MOAT_ALWAYS_ALLOW_MODULES := []
    MOAT_ALWAYS_ALLOW_VIEWS := []
    MOAT_ALWAYS_ALLOW_URLS := []
    MOAT_ALLOW_ADMIN := false
    MOAT_DEBUG_DISABLE_HTTPS := false
    DEBUG := false
    HTTP_AUTH_REALM := none }

/-- A baseline environment: every path resolves to the view
`app.views.home`, and `authenticate` accepts exactly `user`/`pass`,
returning a staff identity. -/
def envBase : DjangoEnv :=
  { resolveRoute := fun _ => some { viewModule := "app.views", viewName := "home" }
    authenticate := fun u p =>
      if u = strBytes "user" ∧ p = strBytes "pass" then
        some { is_staff := true }
      else none }

/-- A baseline request: a secure GET for `/x` with no session, no
forwarded-proto header and no Authorization header. -/
def reqBase : MoatRequest :=
  { path := "/x", pathInfo := "/x", host := "example.com", queryString := ""
    method := "GET", rawIsSecure := true, xForwardedProto := none
    httpAuthorization := none, session := [] }

/-- Settings with `DEBUG = True`. -/
def cfgDebug : MoatSettings := { cfgBase with DEBUG := true }

/-- Settings with `MOAT_ENABLED` absent. -/
def cfgEnabledAbsent : MoatSettings := { cfgBase with MOAT_ENABLED := none }

/-- Settings with one URL allow-list pattern matching paths that start
with `/open`. -/
def cfgUrlOpen : MoatSettings :=
  { cfgBase with MOAT_ALWAYS_ALLOW_URLS := [fun s => strStartsWith s "/open"] }

/-- An environment where no path resolves (Django would raise
`Resolver404`). -/
def envNoRoute : DjangoEnv := { envBase with resolveRoute := fun _ => none }

/-- Request with credentials that decode to `userpass` — no colon. -/
def reqAuthNoColon : MoatRequest :=
  { reqBase with httpAuthorization := some "basic dXNlcnBhc3M=" }

/-- Request with credentials `QQ` — invalid base64 (incorrect padding). -/
def reqAuthBadPad : MoatRequest :=
  { reqBase with httpAuthorization := some "basic QQ" }

/-- Request with well-formed credentials for `user`/`pass`. -/
def reqAuthGood : MoatRequest :=
  { reqBase with httpAuthorization := some "basic dXNlcjpwYXNz" }

/-- An insecure request to an allow-listed URL, carrying unrelated
session state. -/
def reqOpen : MoatRequest :=
  { reqBase with
    path := "/open/x"
    pathInfo := "/open/x"
    rawIsSecure := false
    session := [("k", [1])] }

/-- An insecure request claiming `X-Forwarded-Proto: https`. -/
def reqForwardedHttps : MoatRequest :=
  { reqBase with rawIsSecure := false, xForwardedProto := some "https" }

/-- An insecure GET with a query string. -/
def reqInsecureQuery : MoatRequest :=
  { reqBase with rawIsSecure := false, queryString := "a=1" }

/-- An insecure POST. -/
def reqInsecurePost : MoatRequest :=
  { reqBase with rawIsSecure := false, method := "POST" }

/-- An insecure POST with a query string. -/
def reqInsecurePostQuery : MoatRequest :=
  { reqBase with rawIsSecure := false, method := "POST", queryString := "b=2" }

/-- An insecure PUT. -/
def reqInsecurePut : MoatRequest :=
  { reqBase with rawIsSecure := false, method := "PUT" }

/-- A secure GET for a second path, `/y`. -/
def reqOther : MoatRequest :=
  { reqBase with path := "/y", pathInfo := "/y" }

/-- An insecure request with `X-Forwarded-Proto: https` and good
credentials for `user`/`pass`. -/
def reqAuthGoodForwarded : MoatRequest :=
  { reqBase with
    rawIsSecure := false
    xForwardedProto := some "https"
    httpAuthorization := some "basic dXNlcjpwYXNz" }

/-- The request object as it leaves the middleware on
`reqAuthGoodForwarded`: `is_secure` patched to true and the
`moat_username` session entry written. -/
def reqAuthGoodForwardedResult : MoatRequest :=
  { reqAuthGoodForwarded with
    rawIsSecure := true
    session := [("moat_username", strBytes "user")] }

/-! ### Helper lemmas about the pipeline structure -/

/-- When the kill-switch does not fire (`MOAT_ENABLED` absent or truthy),
`process_request` runs the gated checks. -/
theorem process_request_gated (cfg : MoatSettings) (env : DjangoEnv)
    (req : MoatRequest) (h : cfg.MOAT_ENABLED ≠ some false) :
    process_request cfg env req = gated_checks cfg env req := by
  unfold process_request
  cases henb : cfg.MOAT_ENABLED with
  | none => rfl
  | some b =>
    cases b with
    | false => exact absurd henb h
    | true => rfl

/-- Under the `reachesHttps` guard conditions, `process_request` reduces
to the HTTPS-enforcement step followed by the Basic Auth helper. -/
theorem reach_https_step (cfg : MoatSettings) (env : DjangoEnv)
    (req : MoatRequest) (route : Route) (h : reachesHttps cfg env req route) :
    process_request cfg env req =
      if !cfg.MOAT_DEBUG_DISABLE_HTTPS && !is_secure_effective req then
        match moat_redirect cfg req with
        | Except.error e => Except.error e
        | Except.ok resp => Except.ok (some resp, req.session)
      else http_auth_helper cfg env req := by
  obtain ⟨h1, hurl, hsess, hres, hview, hmod, hadm⟩ := h
  rw [process_request_gated cfg env req h1]
  unfold gated_checks
  rw [hres]
  simp only [hurl, hsess, hview, hmod, hadm, Option.isSome_none,
    Bool.false_eq_true, if_false]

/-- `_redirect` raises only in the `DEBUG`-and-`POST` case, and the
exception it raises is the `RuntimeError`. -/
theorem moat_redirect_error_debug_post (cfg : MoatSettings)
    (req : MoatRequest) (e : MoatError)
    (h : moat_redirect cfg req = Except.error e) :
    cfg.DEBUG = true ∧ req.method = "POST" ∧ e = MoatError.sslRedirectPost := by
  unfold moat_redirect at h
  by_cases hc : cfg.DEBUG = true ∧ req.method = "POST"
  · rw [if_pos hc] at h
    cases h
    exact ⟨hc.1, hc.2, rfl⟩
  · rw [if_neg hc] at h
    exact Except.noConfusion h

/-- Exhaustive case analysis of `_http_auth_helper`: it either allows
with exactly the `moat_username` session write after a successful staff
verification, or returns the 401 challenge with the session untouched,
or raises one of the two credential-parsing exceptions. -/
theorem http_auth_helper_cases (cfg : MoatSettings) (env : DjangoEnv)
    (req : MoatRequest) :
    (∃ uname, http_auth_helper cfg env req =
        Except.ok (none, sessionSet req.session "moat_username" uname) ∧
        ∃ passwd user, env.authenticate uname passwd = some user ∧
          user.is_staff = true) ∨
    http_auth_helper cfg env req =
      Except.ok (some (challengeResponse cfg), req.session) ∨
    http_auth_helper cfg env req = Except.error MoatError.typeError ∨
    http_auth_helper cfg env req = Except.error MoatError.valueError := by
  unfold http_auth_helper
  repeat' split
  all_goals
    first
      | (left; exact ⟨_, rfl, _, _, by assumption, by assumption⟩)
      | (right; left; rfl)
      | (right; right; left; rfl)
      | (right; right; right; rfl)

/-- `_http_auth_helper` never produces a 307 redirect. -/
theorem http_auth_helper_not_redirect (cfg : MoatSettings) (env : DjangoEnv)
    (req : MoatRequest) : isRedirect (http_auth_helper cfg env req) = false := by
  rcases http_auth_helper_cases cfg env req with ⟨u, hu, _⟩ | h | h | h
  · rw [hu]; rfl
  all_goals rw [h]; rfl

/-- `_http_auth_helper` never raises the `RuntimeError` of `_redirect`. -/
theorem http_auth_helper_not_ssl (cfg : MoatSettings) (env : DjangoEnv)
    (req : MoatRequest) :
    http_auth_helper cfg env req ≠ Except.error MoatError.sslRedirectPost := by
  rcases http_auth_helper_cases cfg env req with ⟨u, hu, _⟩ | h | h | h
  · rw [hu]; exact fun hc => Except.noConfusion hc
  all_goals rw [h]; simp

/-- Frame property of `_http_auth_helper`: it returns either the allow
value with exactly the `moat_username` write after a successful staff
verification, or the challenge with the session untouched. -/
theorem http_auth_helper_frame (cfg : MoatSettings) (env : DjangoEnv)
    (req : MoatRequest) (out : Option MoatResponse) (s : Session)
    (h : http_auth_helper cfg env req = Except.ok (out, s)) :
    s = req.session ∨
      (out = none ∧ ∃ uname passwd user,
        env.authenticate uname passwd = some user ∧ user.is_staff = true ∧
        s = sessionSet req.session "moat_username" uname) := by
  rcases http_auth_helper_cases cfg env req with
    ⟨u, hu, p, user, hauth, hstaff⟩ | hc | hc | hc
  · rw [hu] at h
    rcases h with ⟨⟩
    exact Or.inr ⟨rfl, u, p, user, hauth, hstaff, rfl⟩
  · rw [hc] at h
    rcases h with ⟨⟩
    exact Or.inl rfl
  · rw [hc] at h; exact Except.noConfusion h
  · rw [hc] at h; exact Except.noConfusion h

/-- The kill-switch either allows immediately or hands over to the gated
checks. -/
theorem process_request_split (cfg : MoatSettings) (env : DjangoEnv)
    (req : MoatRequest) :
    process_request cfg env req = Except.ok (none, req.session) ∨
    process_request cfg env req = gated_checks cfg env req := by
  unfold process_request
  cases he : cfg.MOAT_ENABLED with
  | none => exact Or.inr rfl
  | some b =>
    cases b with
    | false => exact Or.inl rfl
    | true => exact Or.inr rfl

/-- Exhaustive case analysis of the gated checks: an early allow, the
`Resolver404` exception, the outcome of `_redirect` (exception or 307
response), or the outcome of `_http_auth_helper`. -/
theorem gated_checks_cases (cfg : MoatSettings) (env : DjangoEnv)
    (req : MoatRequest) :
    gated_checks cfg env req = Except.ok (none, req.session) ∨
    gated_checks cfg env req = Except.error MoatError.resolver404 ∨
    (∃ e, moat_redirect cfg req = Except.error e ∧
      gated_checks cfg env req = Except.error e) ∨
    (∃ resp, moat_redirect cfg req = Except.ok resp ∧
      gated_checks cfg env req = Except.ok (some resp, req.session)) ∨
    gated_checks cfg env req = http_auth_helper cfg env req := by
  unfold gated_checks
  repeat' split
  all_goals
    first
      | exact Or.inl rfl
      | exact Or.inr (Or.inl rfl)
      | exact Or.inr (Or.inr (Or.inl ⟨_, by assumption, rfl⟩))
      | exact Or.inr (Or.inr (Or.inr (Or.inl ⟨_, by assumption, rfl⟩)))
      | exact Or.inr (Or.inr (Or.inr (Or.inr rfl)))

/-- The `RuntimeError` of `_redirect` is the only way `process_request`
produces `sslRedirectPost`, and it requires `DEBUG` and method `POST`. -/
theorem process_request_ssl_only (cfg : MoatSettings) (env : DjangoEnv)
    (req : MoatRequest)
    (h : process_request cfg env req = Except.error MoatError.sslRedirectPost) :
    cfg.DEBUG = true ∧ req.method = "POST" := by
  rcases process_request_split cfg env req with hp | hp
  · rw [hp] at h; exact Except.noConfusion h
  · rw [hp] at h
    rcases gated_checks_cases cfg env req with
      hg | hg | ⟨e, hm, hg⟩ | ⟨resp, hm, hg⟩ | hg
    · rw [hg] at h; exact Except.noConfusion h
    · rw [hg] at h; simp at h
    · obtain ⟨hd, hpost, _⟩ := moat_redirect_error_debug_post cfg req e hm
      exact ⟨hd, hpost⟩
    · rw [hg] at h; exact Except.noConfusion h
    · rw [hg] at h; exact absurd h (http_auth_helper_not_ssl cfg env req)

/-! #### The state-threading embedding and its agreement with the
outcome/session projection -/

/-- Either the forwarded-proto header is not exactly `https` and the
monkey-patch leaves the request untouched, or it is and the patch
overwrites only the `is_secure` behaviour. -/
theorem patched_request_cases (req : MoatRequest) :
    patched_request req = req ∨
    (req.xForwardedProto = some "https" ∧
      patched_request req = { req with rawIsSecure := true }) := by
  unfold patched_request
  split
  · next v hx =>
    by_cases hv : v = "https"
    · subst hv
      rw [if_pos rfl]
      exact Or.inr ⟨hx, rfl⟩
    · rw [if_neg hv]
      exact Or.inl rfl
  · exact Or.inl rfl

/-- The monkey-patch does not touch the session. -/
theorem patched_request_session (req : MoatRequest) :
    (patched_request req).session = req.session := by
  rcases patched_request_cases req with hp | ⟨hx, hp⟩ <;> rw [hp]

/-- The patched request's `is_secure()` value is `is_secure_effective`. -/
theorem patched_request_secure (req : MoatRequest) :
    (patched_request req).rawIsSecure = is_secure_effective req := by
  unfold patched_request is_secure_effective
  split
  · next v hx =>
    by_cases hv : v = "https"
    · rw [if_pos hv, if_pos hv]
    · rw [if_neg hv, if_neg hv]
  · rfl

/-- `_redirect` reads none of the fields the monkey-patch changes. -/
theorem moat_redirect_patched (cfg : MoatSettings) (req : MoatRequest) :
    moat_redirect cfg (patched_request req) = moat_redirect cfg req := by
  rcases patched_request_cases req with hp | ⟨hx, hp⟩
  · rw [hp]
  · rw [hp]; rfl

/-- `_http_auth_helper` reads none of the fields the monkey-patch
changes. -/
theorem http_auth_helper_patched (cfg : MoatSettings) (env : DjangoEnv)
    (req : MoatRequest) :
    http_auth_helper cfg env (patched_request req) =
      http_auth_helper cfg env req := by
  rcases patched_request_cases req with hp | ⟨hx, hp⟩
  · rw [hp]
  · rw [hp]; rfl

/-- Exhaustive case analysis of the state-threading
`_http_auth_helper`: allow with exactly the `moat_username` session
write after a successful staff verification, challenge with the request
untouched, or one of the two credential-parsing exceptions. -/
theorem http_auth_helper_state_cases (cfg : MoatSettings) (env : DjangoEnv)
    (req : MoatRequest) :
    (∃ uname, http_auth_helper_state cfg env req =
        Except.ok (none,
          { req with session := sessionSet req.session "moat_username" uname }) ∧
        ∃ passwd user, env.authenticate uname passwd = some user ∧
          user.is_staff = true) ∨
    http_auth_helper_state cfg env req =
      Except.ok (some (challengeResponse cfg), req) ∨
    http_auth_helper_state cfg env req = Except.error MoatError.typeError ∨
    http_auth_helper_state cfg env req = Except.error MoatError.valueError := by
  unfold http_auth_helper_state
  repeat' split
  all_goals
    first
      | (left; exact ⟨_, rfl, _, _, by assumption, by assumption⟩)
      | (right; left; rfl)
      | (right; right; left; rfl)
      | (right; right; right; rfl)

/-- Projecting the state-threading Basic Auth helper down to outcome and
session gives the session-level helper. -/
theorem http_auth_helper_state_session (cfg : MoatSettings)
    (env : DjangoEnv) (req : MoatRequest) :
    (http_auth_helper_state cfg env req).map (fun p => (p.1, p.2.session)) =
      http_auth_helper cfg env req := by
  unfold http_auth_helper_state http_auth_helper
  repeat' split
  all_goals rfl

/-- The state-threading kill-switch either allows with the request
untouched or hands over to the gated checks. -/
theorem process_request_state_split (cfg : MoatSettings) (env : DjangoEnv)
    (req : MoatRequest) :
    process_request_state cfg env req = Except.ok (none, req) ∨
    process_request_state cfg env req = gated_checks_state cfg env req := by
  unfold process_request_state
  cases he : cfg.MOAT_ENABLED with
  | none => exact Or.inr rfl
  | some b =>
    cases b with
    | false => exact Or.inl rfl
    | true => exact Or.inr rfl

/-- Exhaustive case analysis of the state-threading gated checks. -/
theorem gated_checks_state_cases (cfg : MoatSettings) (env : DjangoEnv)
    (req : MoatRequest) :
    gated_checks_state cfg env req = Except.ok (none, req) ∨
    gated_checks_state cfg env req = Except.error MoatError.resolver404 ∨
    (∃ e, moat_redirect cfg (patched_request req) = Except.error e ∧
      gated_checks_state cfg env req = Except.error e) ∨
    (∃ resp, moat_redirect cfg (patched_request req) = Except.ok resp ∧
      gated_checks_state cfg env req =
        Except.ok (some resp, patched_request req)) ∨
    gated_checks_state cfg env req =
      http_auth_helper_state cfg env (patched_request req) := by
  unfold gated_checks_state
  repeat' split
  all_goals
    first
      | exact Or.inl rfl
      | exact Or.inr (Or.inl rfl)
      | exact Or.inr (Or.inr (Or.inl ⟨_, by assumption, rfl⟩))
      | exact Or.inr (Or.inr (Or.inr (Or.inl ⟨_, by assumption, rfl⟩)))
      | exact Or.inr (Or.inr (Or.inr (Or.inr rfl)))

/-- Projecting the state-threading gated checks down to outcome and
session gives `gated_checks`. -/
theorem gated_checks_state_agrees (cfg : MoatSettings) (env : DjangoEnv)
    (req : MoatRequest) :
    (gated_checks_state cfg env req).map (fun p => (p.1, p.2.session)) =
      gated_checks cfg env req := by
  unfold gated_checks_state gated_checks
  rw [patched_request_secure req, moat_redirect_patched cfg req]
  repeat' split
  all_goals
    first
      | rfl
      | (rw [http_auth_helper_state_session cfg env (patched_request req)]
         exact http_auth_helper_patched cfg env req)
      | simp [Except.map, patched_request_session req]

/-- `process_request` is exactly the outcome/session projection of the
state-threading embedding: the two models agree everywhere, and the
state one additionally records the monkey-patch on the request. -/
theorem process_request_state_agrees (cfg : MoatSettings) (env : DjangoEnv)
    (req : MoatRequest) :
    (process_request_state cfg env req).map (fun p => (p.1, p.2.session)) =
      process_request cfg env req := by
  unfold process_request_state process_request
  cases he : cfg.MOAT_ENABLED with
  | none => exact gated_checks_state_agrees cfg env req
  | some b =>
    cases b with
    | false => rfl
    | true => exact gated_checks_state_agrees cfg env req

/-! ### Claims -/

/-- C2 counterexample: with `MOAT_ENABLED` absent from settings, a plain
secure request with no session and no credentials does not get the Allow
outcome — gating still runs and challenges it.  This refutes the claim
that an absent flag means no gating at all. -/
theorem C2_counterexample_absent_flag_still_gates :
    isAllow (process_request cfgEnabledAbsent envBase reqBase) = false := by
  rfl

/-- C2 (amended): when the `enabled` flag is absent from settings, the
engine gates exactly as if the flag were present and true; gating is
skipped (every request allowed) only when the flag is present and
false. -/
theorem C2_amended_absent_flag_behaves_as_enabled (cfg : MoatSettings)
    (env : DjangoEnv) (req : MoatRequest) :
    process_request { cfg with MOAT_ENABLED := none } env req =
      process_request { cfg with MOAT_ENABLED := some true } env req ∧
    process_request { cfg with MOAT_ENABLED := some false } env req =
      Except.ok (none, req.session) := by
  exact ⟨rfl, rfl⟩

/-- C3 counterexample: when the route resolver cannot resolve the path,
`process_request` raises `Resolver404` instead of proceeding to transport
enforcement and credential checking. -/
theorem C3_counterexample_unresolvable_raises :
    process_request cfgBase envNoRoute reqBase =
      Except.error MoatError.resolver404 := by
  rfl

/-- C3 (amended): when the route resolver cannot resolve the request
path (and no earlier check has allowed the request), the engine raises
the resolver's `Resolver404` exception; it does not proceed to transport
enforcement or credential checking. -/
theorem C3_amended_unresolvable_raises (cfg : MoatSettings) (env : DjangoEnv)
    (req : MoatRequest)
    (h1 : cfg.MOAT_ENABLED ≠ some false)
    (hurl : anyUrlMatch cfg.MOAT_ALWAYS_ALLOW_URLS req.path = false)
    (hsess : sessionGet req.session "moat_username" = none)
    (hres : env.resolveRoute req.pathInfo = none) :
    process_request cfg env req = Except.error MoatError.resolver404 := by
  rw [process_request_gated cfg env req h1]
  unfold gated_checks
  rw [hres]
  simp [hurl, hsess]

/-- Witness for C3 (amended) at a concrete unresolvable request. -/
theorem C3_amended_unresolvable_raises_witness :
    process_request cfgBase envNoRoute reqOther =
      Except.error MoatError.resolver404 :=
  C3_amended_unresolvable_raises cfgBase envNoRoute reqOther
    (by decide) rfl rfl rfl

/-- C4: whenever some pattern of `MOAT_ALWAYS_ALLOW_URLS` matches the
request path, the outcome is Allow, regardless of session contents,
credentials and transport security — the URL allow-list short-circuits
before every other check except the kill-switch (whose firing also
yields Allow). -/
theorem C4_url_allowlist_short_circuits (cfg : MoatSettings)
    (env : DjangoEnv) (req : MoatRequest)
    (h : anyUrlMatch cfg.MOAT_ALWAYS_ALLOW_URLS req.path = true) :
    process_request cfg env req = Except.ok (none, req.session) := by
  unfold process_request gated_checks
  cases he : cfg.MOAT_ENABLED with
  | none => simp [h]
  | some b => cases b <;> simp [h]

/-- Witness for C4: an insecure request with junk session state whose
path matches the configured pattern is allowed untouched. -/
theorem C4_url_allowlist_short_circuits_witness :
    process_request cfgUrlOpen envBase reqOpen =
      Except.ok (none, reqOpen.session) :=
  C4_url_allowlist_short_circuits cfgUrlOpen envBase reqOpen rfl

/-- C6 counterexample: an insecure POST under `DEBUG = True` that passes
no allow-list and has no authenticated session is not redirected — the
engine raises a `RuntimeError` instead.  This refutes the unconditional
form of the claim that every such insecure request yields
RedirectToSecure. -/
theorem C6_counterexample_debug_post_raises :
    process_request cfgDebug envBase reqInsecurePost =
      Except.error MoatError.sslRedirectPost := by
  rfl

/-- C6 (amended): every insecure request (raw flag false, no
forwarded-proto https override) with `debugDisableHttps` false that
passes no allow-list and has no authenticated session — and that is not
in the `DEBUG`-mode-with-POST-method special case — gets the 307
RedirectToSecure response whose URL is `https://` plus the original host
and the full path including the query string. -/
theorem C6_amended_insecure_redirects_307 (cfg : MoatSettings)
    (env : DjangoEnv) (req : MoatRequest) (route : Route)
    (h : reachesHttps cfg env req route)
    (hddh : cfg.MOAT_DEBUG_DISABLE_HTTPS = false)
    (hsec : is_secure_effective req = false)
    (hnd : ¬(cfg.DEBUG = true ∧ req.method = "POST")) :
    process_request cfg env req =
      Except.ok (some
        { status := 307
          location := some ("https://" ++ req.host ++ get_full_path req)
          wwwAuthenticate := none }, req.session) := by
  rw [reach_https_step cfg env req route h, hddh, hsec]
  unfold moat_redirect
  rw [if_neg hnd]
  rfl

/-- Witness for C6 (amended): a concrete insecure GET with a query
string is 307-redirected to the https URL with identical host, path and
query. -/
theorem C6_amended_insecure_redirects_307_witness :
    process_request cfgBase envBase reqInsecureQuery =
      Except.ok (some
        { status := 307
          location := some "https://example.com/x?a=1"
          wwwAuthenticate := none }, reqInsecureQuery.session) :=
  C6_amended_insecure_redirects_307 cfgBase envBase reqInsecureQuery
    { viewModule := "app.views", viewName := "home" }
    ⟨by decide, rfl, rfl, rfl, rfl, rfl, rfl⟩ rfl rfl (by decide)

/-- C7: a request whose forwarded-proto header is present and equals
exactly `https` is treated as secure: when it reaches the transport
step, the engine does not redirect and instead proceeds to the
credential check (`_http_auth_helper`), whose result is never a 307
redirect. -/
theorem C7_forwarded_https_reaches_credential_check (cfg : MoatSettings)
    (env : DjangoEnv) (req : MoatRequest) (route : Route)
    (h : reachesHttps cfg env req route)
    (hxfp : req.xForwardedProto = some "https") :
    process_request cfg env req = http_auth_helper cfg env req ∧
    isRedirect (process_request cfg env req) = false := by
  have hsec : is_secure_effective req = true := by
    unfold is_secure_effective
    rw [hxfp]
    simp
  have heq : process_request cfg env req = http_auth_helper cfg env req := by
    rw [reach_https_step cfg env req route h, hsec]
    simp
  refine ⟨heq, ?_⟩
  rw [heq]
  exact http_auth_helper_not_redirect cfg env req

/-- Witness for C7: a concrete otherwise-insecure request with
`X-Forwarded-Proto: https` proceeds to the credential check and is not
redirected. -/
theorem C7_forwarded_https_reaches_credential_check_witness :
    process_request cfgBase envBase reqForwardedHttps =
      http_auth_helper cfgBase envBase reqForwardedHttps ∧
    isRedirect (process_request cfgBase envBase reqForwardedHttps) = false :=
  C7_forwarded_https_reaches_credential_check cfgBase envBase
    reqForwardedHttps { viewModule := "app.views", viewName := "home" }
    ⟨by decide, rfl, rfl, rfl, rfl, rfl, rfl⟩ rfl

/-- C8 counterexample: under `DEBUG = True`, an insecure PUT — a
body-carrying non-idempotent method — that reaches HTTPS enforcement is
redirected normally; no fatal error is raised.  This refutes the claim
that every non-safe method triggers the fatal error in debug mode. -/
theorem C8_counterexample_put_not_fatal :
    process_request cfgDebug envBase reqInsecurePut =
      Except.ok (some
        { status := 307
          location := some "https://example.com/x"
          wwwAuthenticate := none }, reqInsecurePut.session) := by
  rfl

/-- C8 (amended): in `DEBUG` mode, an insecure request reaching HTTPS
enforcement raises the fatal `RuntimeError` instead of redirecting
exactly when the method is `POST` (and only then). -/
theorem C8_amended_fatal_only_on_post (cfg : MoatSettings)
    (env : DjangoEnv) (req : MoatRequest) (route : Route)
    (h : reachesHttps cfg env req route)
    (hddh : cfg.MOAT_DEBUG_DISABLE_HTTPS = false)
    (hsec : is_secure_effective req = false)
    (hdbg : cfg.DEBUG = true) (hpost : req.method = "POST") :
    process_request cfg env req = Except.error MoatError.sslRedirectPost := by
  rw [reach_https_step cfg env req route h, hddh, hsec]
  unfold moat_redirect
  have hc : cfg.DEBUG = true ∧ req.method = "POST" := ⟨hdbg, hpost⟩
  rw [if_pos hc]
  rfl

/-- Witness for C8 (amended) at a concrete insecure POST under
`DEBUG = True`. -/
theorem C8_amended_fatal_only_on_post_witness :
    process_request cfgDebug envBase reqInsecurePostQuery =
      Except.error MoatError.sslRedirectPost :=
  C8_amended_fatal_only_on_post cfgDebug envBase reqInsecurePostQuery
    { viewModule := "app.views", viewName := "home" }
    ⟨by decide, rfl, rfl, rfl, rfl, rfl, rfl⟩ rfl rfl rfl rfl

/-- C10: with debug mode off, an insecure POST that reaches HTTPS
enforcement receives the 307 RedirectToSecure response like any other
insecure request (the body-dropping redirect is performed silently); and
the fatal `RuntimeError` can only ever arise when `DEBUG` is on and the
method is exactly `POST`. -/
theorem C10_production_post_redirects_fatal_only_debug_post
    (cfg : MoatSettings) (env : DjangoEnv) (req : MoatRequest)
    (route : Route)
    (h : reachesHttps cfg env req route)
    (hddh : cfg.MOAT_DEBUG_DISABLE_HTTPS = false)
    (hsec : is_secure_effective req = false)
    (hdbg : cfg.DEBUG = false) (hpost : req.method = "POST") :
    process_request cfg env req =
      Except.ok (some
        { status := 307
          location := some ("https://" ++ req.host ++ get_full_path req)
          wwwAuthenticate := none }, req.session) ∧
    ∀ cfg2 env2 req2,
      process_request cfg2 env2 req2 =
          Except.error MoatError.sslRedirectPost →
        cfg2.DEBUG = true ∧ req2.method = "POST" := by
  constructor
  · rw [reach_https_step cfg env req route h, hddh, hsec]
    unfold moat_redirect
    have hnc : ¬(cfg.DEBUG = true ∧ req.method = "POST") := by
      simp [hdbg]
    rw [if_neg hnc]
    rfl
  · intro cfg2 env2 req2 hr
    exact process_request_ssl_only cfg2 env2 req2 hr

/-- Witness for C10 at a concrete insecure POST in production mode. -/
theorem C10_production_post_redirects_fatal_only_debug_post_witness :
    process_request cfgBase envBase reqInsecurePost =
      Except.ok (some
        { status := 307
          location := some "https://example.com/x"
          wwwAuthenticate := none }, reqInsecurePost.session) :=
  (C10_production_post_redirects_fatal_only_debug_post cfgBase envBase
    reqInsecurePost { viewModule := "app.views", viewName := "home" }
    ⟨by decide, rfl, rfl, rfl, rfl, rfl, rfl⟩ rfl rfl rfl rfl).1

/-- C1 counterexample: a request whose `basic` credential token decodes
to bytes without a colon separator makes the engine raise `ValueError`
(from unpacking `split(':')`) instead of returning the 401 Challenge
outcome.  This refutes the claim that such malformed input is treated as
a verification failure rather than a crash. -/
theorem C1_counterexample_no_colon_raises :
    process_request cfgBase envBase reqAuthNoColon =
      Except.error MoatError.valueError := by
  rfl

/-- C1 (amended): for a request that reaches the credential check with a
two-token `basic` Authorization header, an invalid base64 credential
token raises `TypeError` (Python 2.7's `base64.b64decode` re-raises the
`binascii.Error` from `binascii.a2b_base64` as `TypeError`), and a
decode whose byte string does not split on `:` into exactly two pieces
raises `ValueError`; neither case returns the Challenge outcome. -/
theorem C1_amended_malformed_credentials_raise (cfg : MoatSettings)
    (env : DjangoEnv) (req : MoatRequest) (route : Route)
    (hdr scheme cred : String)
    (h : reachesHttps cfg env req route)
    (hsec : (!cfg.MOAT_DEBUG_DISABLE_HTTPS && !is_secure_effective req) = false)
    (hauth : req.httpAuthorization = some hdr)
    (hsplit : pySplitWs hdr = [scheme, cred])
    (hscheme : pyLower scheme = "basic") :
    (pyB64Decode cred = none →
      process_request cfg env req = Except.error MoatError.typeError) ∧
    (∀ decoded, pyB64Decode cred = some decoded →
      (splitColon decoded).length ≠ 2 →
      process_request cfg env req = Except.error MoatError.valueError) := by
  have hp : process_request cfg env req = http_auth_helper cfg env req := by
    rw [reach_https_step cfg env req route h, hsec]
    simp
  constructor
  · intro hdec
    rw [hp]
    unfold http_auth_helper
    simp [hauth, hsplit, hscheme, hdec]
  · intro decoded hdec hlen
    rw [hp]
    unfold http_auth_helper
    simp only [hauth, hsplit, hscheme, hdec]
    rcases hsp : splitColon decoded with _ | ⟨a, _ | ⟨b, _ | ⟨c, t⟩⟩⟩ <;>
      first
        | rfl
        | (rw [hsp] at hlen; simp at hlen)

/-- Witness for C1 (amended): concrete invalid base64 (`QQ`, incorrect
padding) raises `TypeError`. -/
theorem C1_amended_malformed_credentials_raise_witness :
    process_request cfgBase envBase reqAuthBadPad =
      Except.error MoatError.typeError :=
  (C1_amended_malformed_credentials_raise cfgBase envBase reqAuthBadPad
    { viewModule := "app.views", viewName := "home" }
    "basic QQ" "basic" "QQ"
    ⟨by decide, rfl, rfl, rfl, rfl, rfl, rfl⟩ rfl rfl rfl rfl).1 rfl

/-- C5: a request that reaches the credential check with a well-formed
`Authorization: Basic base64(user:pass)` header, where `authenticate`
returns a staff identity, is allowed, and the decoded username is written
to the session under `moat_username`. -/
theorem C5_staff_basic_auth_allows_and_sets_session (cfg : MoatSettings)
    (env : DjangoEnv) (req : MoatRequest) (route : Route)
    (hdr scheme cred : String) (decoded uname passwd : List Nat)
    (user : AuthUser)
    (h : reachesHttps cfg env req route)
    (hsec : (!cfg.MOAT_DEBUG_DISABLE_HTTPS && !is_secure_effective req) = false)
    (hauth : req.httpAuthorization = some hdr)
    (hsplit : pySplitWs hdr = [scheme, cred])
    (hscheme : pyLower scheme = "basic")
    (hdec : pyB64Decode cred = some decoded)
    (hcolon : splitColon decoded = [uname, passwd])
    (hverify : env.authenticate uname passwd = some user)
    (hstaff : user.is_staff = true) :
    process_request cfg env req =
      Except.ok (none, sessionSet req.session "moat_username" uname) := by
  have hp : process_request cfg env req = http_auth_helper cfg env req := by
    rw [reach_https_step cfg env req route h, hsec]
    simp
  rw [hp]
  unfold http_auth_helper
  simp [hauth, hsplit, hscheme, hdec, hcolon, hverify, hstaff]

/-- Witness for C5 at the concrete header `basic dXNlcjpwYXNz`
(base64 of `user:pass`) against an environment whose `authenticate`
accepts exactly those credentials with a staff identity. -/
theorem C5_staff_basic_auth_allows_and_sets_session_witness :
    process_request cfgBase envBase reqAuthGood =
      Except.ok (none,
        sessionSet reqAuthGood.session "moat_username" (strBytes "user")) :=
  C5_staff_basic_auth_allows_and_sets_session cfgBase envBase reqAuthGood
    { viewModule := "app.views", viewName := "home" }
    "basic dXNlcjpwYXNz" "basic" "dXNlcjpwYXNz"
    (strBytes "user:pass") (strBytes "user") (strBytes "pass")
    { is_staff := true }
    ⟨by decide, rfl, rfl, rfl, rfl, rfl, rfl⟩ rfl rfl rfl rfl rfl rfl
    (by decide) rfl

/-- C9 counterexample: on a Challenge path — where the claim says the
engine leaves all request-scoped state unchanged — the forwarded-proto
monkey-patch of line 93 has already mutated the request object: the
request arrives with `is_secure()` false and leaves the middleware with
`is_secure()` true, while the session itself is untouched.  The
`moat_username` session write is therefore not the only write the
engine performs on request-scoped state. -/
theorem C9_counterexample_is_secure_patch :
    process_request_state cfgBase envBase reqForwardedHttps =
      Except.ok (some (challengeResponse cfgBase),
        { reqForwardedHttps with rawIsSecure := true }) ∧
    reqForwardedHttps.rawIsSecure = false := by
  exact ⟨rfl, rfl⟩

/-- C9 (amended): the engine performs at most two kinds of writes on
request-scoped state, and no others.  Whenever `process_request_state`
returns normally, (1) the session is either untouched or — exactly on
the successful staff-verification branch, with outcome Allow — extended
by the single `moat_username` entry, and (2) the final request object
differs from the incoming one in at most its `is_secure` behaviour (the
line 93 monkey-patch, possible only when the forwarded-proto header
equals `https`) besides that session field.  The policy configuration is
a read-only value throughout (no part of the embedding returns a
modified configuration). -/
theorem C9_amended_exactly_two_writes (cfg : MoatSettings)
    (env : DjangoEnv) (req : MoatRequest) (out : Option MoatResponse)
    (req2 : MoatRequest)
    (h : process_request_state cfg env req = Except.ok (out, req2)) :
    (req2.session = req.session ∨
      (out = none ∧ ∃ uname passwd user,
        env.authenticate uname passwd = some user ∧ user.is_staff = true ∧
        req2.session = sessionSet req.session "moat_username" uname)) ∧
    (req2 = { req with session := req2.session } ∨
      (req.xForwardedProto = some "https" ∧
        req2 = { req with rawIsSecure := true, session := req2.session })) := by
  rcases process_request_state_split cfg env req with hp | hp
  · rw [hp] at h
    injection h with h1
    injection h1 with ho hs
    subst hs
    exact ⟨Or.inl rfl, Or.inl rfl⟩
  · rw [hp] at h
    rcases gated_checks_state_cases cfg env req with
      hg | hg | ⟨e, hm, hg⟩ | ⟨resp, hm, hg⟩ | hg
    · rw [hg] at h
      injection h with h1
      injection h1 with ho hs
      subst hs
      exact ⟨Or.inl rfl, Or.inl rfl⟩
    · rw [hg] at h; exact Except.noConfusion h
    · rw [hg] at h; exact Except.noConfusion h
    · rw [hg] at h
      injection h with h1
      injection h1 with ho hs
      subst hs
      constructor
      · exact Or.inl (patched_request_session req)
      · rcases patched_request_cases req with hpr | ⟨hx, hpr⟩
        · rw [hpr]
          exact Or.inl rfl
        · rw [hpr]
          exact Or.inr ⟨hx, rfl⟩
    · rw [hg] at h
      rcases http_auth_helper_state_cases cfg env (patched_request req) with
        ⟨u, hu, p, user, hauth, hstaff⟩ | hc | hc | hc
      · rw [hu] at h
        injection h with h1
        injection h1 with ho hs
        subst hs
        constructor
        · right
          refine ⟨ho.symm, u, p, user, hauth, hstaff, ?_⟩
          show sessionSet (patched_request req).session "moat_username" u =
            sessionSet req.session "moat_username" u
          rw [patched_request_session req]
        · rcases patched_request_cases req with hpr | ⟨hx, hpr⟩
          · rw [hpr]
            exact Or.inl rfl
          · rw [hpr]
            exact Or.inr ⟨hx, rfl⟩
      · rw [hc] at h
        injection h with h1
        injection h1 with ho hs
        subst hs
        constructor
        · exact Or.inl (patched_request_session req)
        · rcases patched_request_cases req with hpr | ⟨hx, hpr⟩
          · rw [hpr]
            exact Or.inl rfl
          · rw [hpr]
            exact Or.inr ⟨hx, rfl⟩
      · rw [hc] at h; exact Except.noConfusion h
      · rw [hc] at h; exact Except.noConfusion h

/-- Witness for C9 (amended) at a concrete request that triggers both
writes: forwarded-proto https (patching `is_secure`) and a successful
staff authentication (writing `moat_username`). -/
theorem C9_amended_exactly_two_writes_witness :
    (reqAuthGoodForwardedResult.session = reqAuthGoodForwarded.session ∨
      ((none : Option MoatResponse) = none ∧ ∃ uname passwd user,
        envBase.authenticate uname passwd = some user ∧
        user.is_staff = true ∧
        reqAuthGoodForwardedResult.session =
          sessionSet reqAuthGoodForwarded.session "moat_username" uname)) ∧
    (reqAuthGoodForwardedResult =
        { reqAuthGoodForwarded with
          session := reqAuthGoodForwardedResult.session } ∨
      (reqAuthGoodForwarded.xForwardedProto = some "https" ∧
        reqAuthGoodForwardedResult =
          { reqAuthGoodForwarded with
            rawIsSecure := true
            session := reqAuthGoodForwardedResult.session })) :=
  C9_amended_exactly_two_writes cfgBase envBase reqAuthGoodForwarded none
    reqAuthGoodForwardedResult (by rfl)

end Moat
